import Mathlib

/-!
Shallow embedding of the streaming-analytics core of the Nifty option
pipeline (seller-state detector, order-book analyzer, candle scorer,
metrics calculator and the candle assembler), together with theorems
settling the specification claims C1 - C10.

Conventions of the embedding:
* Python `Decimal` and `float` values are modelled as `ℚ` (the source
  arithmetic on them is exact at the granularity the claims speak about).
* Python `int` is modelled as `ℤ`, counters as `ℕ`.
* Python `None` is modelled by `Option`; Python truthiness of an optional
  number (`if x:` is false for both `None` and `0`) is `qtruthy` and
  `ztruthy` below.
* Datetimes are modelled as seconds (`ℕ`); `minuteOfHour` models the
  `.minute` attribute and `60 * (t / 60)` models truncation to the minute.
-/

namespace Nifty

/-- Python truthiness of an `Optional[Decimal]`: `None` and `0` are falsy. -/
def qtruthy : Option ℚ → Bool
  | none => false
  | some v => v != 0

/-- Python truthiness of an `Optional[int]`: `None` and `0` are falsy. -/
def ztruthy : Option ℤ → Bool
  | none => false
  | some v => v != 0

/-! ## seller_detector.py -/

/-- `SellerState` enum of `seller_detector.py`. -/
inductive SellerState
  | SELLER_PANIC
  | PROFIT_BOOKING
  | SELLER_DIRECTION
  | NEUTRAL
deriving DecidableEq, Repr

/-- `Recommendation` enum of `seller_detector.py`. -/
inductive Recommendation
  | BUY
  | SELL
  | WAIT
deriving DecidableEq, Repr

/-- Threshold configuration of `SellerStateDetector.__init__`. -/
structure SellerStateDetector where
  oi_decrease_threshold : ℚ
  price_increase_threshold : ℚ
  gamma_spike_threshold : ℚ
  order_book_panic_threshold : ℚ
  spread_threshold : ℚ
  vwap_deviation_threshold : ℚ
  panic_score_buy_threshold : ℚ
deriving DecidableEq, Repr

/-- The default thresholds of `SellerStateDetector.__init__`. -/
def defaultDetector : SellerStateDetector :=
  ⟨-3/1000, 5/1000, 30/100, 35/100, 5/1000, 1/100, 60⟩

/-- `SellerStateDetector.detect_short_covering`. -/
def detect_short_covering (d : SellerStateDetector)
    (oi_change_pct price_change_pct : Option ℚ) : Bool :=
  match oi_change_pct, price_change_pct with
  | some o, some p =>
      decide (o < d.oi_decrease_threshold) && decide (d.price_increase_threshold < p)
  | _, _ => false

/-- `SellerStateDetector.detect_gamma_spike`. -/
def detect_gamma_spike (d : SellerStateDetector) (gamma_spike : Option ℚ) : Bool :=
  match gamma_spike with
  | none => false
  | some g => decide (d.gamma_spike_threshold < |g|)

/-- `SellerStateDetector.detect_order_book_panic`. -/
def detect_order_book_panic (d : SellerStateDetector) (order_book_ratio : Option ℚ) : Bool :=
  match order_book_ratio with
  | none => false
  | some r => decide (r < d.order_book_panic_threshold)

/-- `SellerStateDetector.detect_liquidity_drying`. -/
def detect_liquidity_drying (d : SellerStateDetector) (bid_ask_spread : Option ℚ) : Bool :=
  match bid_ask_spread with
  | none => false
  | some s => decide (d.spread_threshold < s)

/-- `SellerStateDetector.detect_strong_buying`. -/
def detect_strong_buying (d : SellerStateDetector) (price : ℚ) (vwap : Option ℚ) : Bool :=
  match vwap with
  | none => false
  | some v => if v = 0 then false else decide (d.vwap_deviation_threshold < (price - v) / v)

/-- `SellerStateDetector.calculate_panic_score`: sequential accumulation with
the two truthiness-guarded bonus terms, capped at 100. -/
def calculate_panic_score
    (short_covering gamma_spike order_book_panic liquidity_drying strong_buying : Bool)
    (oi_change_pct order_book_ratio : Option ℚ) : ℚ :=
  let score : ℚ := 0
  let score := if short_covering then
      score + (if qtruthy oi_change_pct && decide ((1 : ℚ)/100 < |oi_change_pct.getD 0|)
               then (30 : ℚ) + 10 else 30)
    else score
  let score := if gamma_spike then score + 25 else score
  let score := if order_book_panic then
      score + (if qtruthy order_book_ratio && decide (order_book_ratio.getD 0 < (1 : ℚ)/4)
               then (20 : ℚ) + 10 else 20)
    else score
  let score := if liquidity_drying then score + 15 else score
  let score := if strong_buying then score + 10 else score
  min score 100

/-- `SellerStateDetector.determine_state_and_recommendation`. -/
def determine_state_and_recommendation (d : SellerStateDetector)
    (panic_score : ℚ) (short_covering : Bool) (signals_count : ℕ) :
    SellerState × Recommendation × ℚ :=
  if d.panic_score_buy_threshold ≤ panic_score then
    (SellerState.SELLER_PANIC, Recommendation.BUY, min (9/10 : ℚ) (panic_score / 100))
  else if 2 ≤ signals_count ∧ short_covering = false then
    (SellerState.PROFIT_BOOKING, Recommendation.WAIT, (6/10 : ℚ))
  else if signals_count ≤ 1 then
    (SellerState.NEUTRAL, Recommendation.WAIT, (1/2 : ℚ))
  else
    (SellerState.NEUTRAL, Recommendation.WAIT, (1/2 : ℚ))

/-- `DetectionResult` dataclass of `seller_detector.py`. -/
structure DetectionResult where
  state : SellerState
  confidence : ℚ
  panic_score : ℚ
  signals : List String
  recommendation : Recommendation
  short_covering : Bool
  gamma_spike_detected : Bool
  order_book_panic : Bool
  liquidity_drying : Bool
  strong_buying : Bool
deriving DecidableEq, Repr

/-- `SellerStateDetector.detect`. -/
def detect (d : SellerStateDetector)
    (oi_change_pct price previous_close vwap gamma_spike order_book_ratio
      bid_ask_spread : Option ℚ) : DetectionResult :=
  let price_change_pct : Option ℚ :=
    if qtruthy price && qtruthy previous_close && decide (0 < previous_close.getD 0) then
      some ((price.getD 0 - previous_close.getD 0) / previous_close.getD 0)
    else none
  let short_covering := detect_short_covering d oi_change_pct price_change_pct
  let gamma_spike_det := detect_gamma_spike d gamma_spike
  let ob_panic := detect_order_book_panic d order_book_ratio
  let liquidity_dry := detect_liquidity_drying d bid_ask_spread
  let strong_buy := if qtruthy price then detect_strong_buying d (price.getD 0) vwap else false
  let signals : List String :=
    (if short_covering then ["SHORT_COVERING"] else [])
      ++ (if gamma_spike_det then ["GAMMA_SPIKE"] else [])
      ++ (if ob_panic then ["ORDER_BOOK_PANIC"] else [])
      ++ (if liquidity_dry then ["LIQUIDITY_DRYING"] else [])
      ++ (if strong_buy then ["STRONG_BUYING"] else [])
  let panic_score := calculate_panic_score short_covering gamma_spike_det ob_panic
      liquidity_dry strong_buy oi_change_pct order_book_ratio
  let res := determine_state_and_recommendation d panic_score short_covering signals.length
  { state := res.1
    confidence := res.2.2
    panic_score := panic_score
    signals := signals
    recommendation := res.2.1
    short_covering := short_covering
    gamma_spike_detected := gamma_spike_det
    order_book_panic := ob_panic
    liquidity_drying := liquidity_dry
    strong_buying := strong_buy }

/-! ### Specification-side definitions for the detector claims -/

/-- Modelled from the spec wording of claim C1: the uncapped panic-score sum,
with the bonus terms exactly as the spec words them (`additional +10 when
|oi_change_pct| > 0.01`, `additional +10 when `order_book_ratio < 0.25`). -/
def panicRawClaimed
    (short_covering gamma_spike order_book_panic liquidity_drying strong_buying : Bool)
    (oi_change_pct order_book_ratio : Option ℚ) : ℚ :=
  (if short_covering then
      (30 : ℚ) + (match oi_change_pct with
        | some v => if (1 : ℚ)/100 < |v| then (10 : ℚ) else 0
        | none => 0)
    else 0)
  + (if gamma_spike then (25 : ℚ) else 0)
  + (if order_book_panic then
      (20 : ℚ) + (match order_book_ratio with
        | some v => if v < (1 : ℚ)/4 then (10 : ℚ) else 0
        | none => 0)
    else 0)
  + (if liquidity_drying then (15 : ℚ) else 0)
  + (if strong_buying then (10 : ℚ) else 0)

/-- The panic score as claim C1 words it: claimed sum capped at 100. -/
def panicScoreClaimed
    (short_covering gamma_spike order_book_panic liquidity_drying strong_buying : Bool)
    (oi_change_pct order_book_ratio : Option ℚ) : ℚ :=
  min (panicRawClaimed short_covering gamma_spike order_book_panic liquidity_drying
        strong_buying oi_change_pct order_book_ratio) 100

/-- The amended panic-score sum: identical to the claimed one except that the
order-book bonus additionally requires the ratio to be present and nonzero
(the source guards it with Python truthiness `if order_book_ratio:`). -/
def panicRawAmended
    (short_covering gamma_spike order_book_panic liquidity_drying strong_buying : Bool)
    (oi_change_pct order_book_ratio : Option ℚ) : ℚ :=
  (if short_covering then
      (30 : ℚ) + (match oi_change_pct with
        | some v => if (1 : ℚ)/100 < |v| then (10 : ℚ) else 0
        | none => 0)
    else 0)
  + (if gamma_spike then (25 : ℚ) else 0)
  + (if order_book_panic then
      (20 : ℚ) + (match order_book_ratio with
        | some v => if v ≠ 0 ∧ v < (1 : ℚ)/4 then (10 : ℚ) else 0
        | none => 0)
    else 0)
  + (if liquidity_drying then (15 : ℚ) else 0)
  + (if strong_buying then (10 : ℚ) else 0)

/-- Modelled from the spec wording of claim C2 (rules evaluated in order):
rule 1 `panic_score ≥ buy_threshold`, rule 2 `fired_feature_count ≥ 2 and not
short_covering`, rule 3 the neutral fallback. -/
def determineClaimed (buy_threshold panic_score : ℚ)
    (short_covering : Bool) (fired_feature_count : ℕ) :
    SellerState × Recommendation × ℚ :=
  if buy_threshold ≤ panic_score then
    (SellerState.SELLER_PANIC, Recommendation.BUY, min (9/10 : ℚ) (panic_score / 100))
  else if 2 ≤ fired_feature_count ∧ short_covering = false then
    (SellerState.PROFIT_BOOKING, Recommendation.WAIT, (6/10 : ℚ))
  else
    (SellerState.NEUTRAL, Recommendation.WAIT, (1/2 : ℚ))

/-! ## orderbook_analyzer.py -/

/-- `OrderBookLevel` dataclass. -/
structure OrderBookLevel where
  price : ℚ
  quantity : ℤ
deriving DecidableEq, Repr

/-- `SupportResistance` dataclass. -/
structure SupportResistance where
  support_levels : List (ℚ × ℤ)
  support_avg : ℚ
  resistance_levels : List (ℚ × ℤ)
  resistance_avg : ℚ
deriving DecidableEq, Repr

/-- The ordering used by `sorted(levels, key=lambda x: x.quantity, reverse=True)`:
descending quantity. -/
def levelGE (a b : OrderBookLevel) : Prop := b.quantity ≤ a.quantity

instance : DecidableRel levelGE := fun a b =>
  inferInstanceAs (Decidable (b.quantity ≤ a.quantity))

instance : IsTotal OrderBookLevel levelGE := ⟨fun a b => le_total b.quantity a.quantity⟩

instance : IsTrans OrderBookLevel levelGE := ⟨fun _ _ _ hab hbc => le_trans hbc hab⟩

/-- Python's `sorted(..., key=lambda x: x.quantity, reverse=True)`: a stable
sort by descending quantity (insertion sort is stable, like CPython's sort). -/
def sortLevelsDesc (l : List OrderBookLevel) : List OrderBookLevel :=
  List.insertionSort levelGE l

/-- The level list built by `calculate_sup_res`: one level per index up to the
shorter of the two arrays (`range(min(len(prices), len(quantities)))`). -/
def mkLevels (prices : List ℚ) (quantities : List ℤ) : List OrderBookLevel :=
  List.zipWith (fun p q => OrderBookLevel.mk p q) prices quantities

/-- The `while len < 3: append OrderBookLevel(0, 0)` padding loop. -/
def padTo3 (l : List OrderBookLevel) : List OrderBookLevel :=
  l ++ List.replicate (3 - l.length) (OrderBookLevel.mk 0 0)

/-- The `support_avg` computation: mean of the strictly positive prices among
the padded top three, `0` when none. -/
def avgNonzero (levels : List OrderBookLevel) : ℚ :=
  let ps := (levels.filter (fun lv => decide (0 < lv.price))).map (fun lv => lv.price)
  if ps = [] then 0 else ps.sum / (ps.length : ℚ)

/-- `OrderBookAnalyzer.calculate_sup_res`. -/
def calculate_sup_res (bid_prices : List ℚ) (bid_quantities : List ℤ)
    (ask_prices : List ℚ) (ask_quantities : List ℤ) : SupportResistance :=
  let bid_levels := mkLevels bid_prices bid_quantities
  let ask_levels := mkLevels ask_prices ask_quantities
  let top_3_bids := padTo3 ((sortLevelsDesc bid_levels).take 3)
  let top_3_asks := padTo3 ((sortLevelsDesc ask_levels).take 3)
  { support_levels := top_3_bids.map (fun lv => (lv.price, lv.quantity))
    support_avg := avgNonzero top_3_bids
    resistance_levels := top_3_asks.map (fun lv => (lv.price, lv.quantity))
    resistance_avg := avgNonzero top_3_asks }

/-- `OrderBookAnalyzer.calculate_tbq_tsq`. -/
def calculate_tbq_tsq (bid_quantities ask_quantities : List ℤ) : ℤ × ℤ :=
  (bid_quantities.sum, ask_quantities.sum)

/-- `OrderBookAnalyzer.calculate_order_book_ratio`. -/
def calculate_order_book_ratio (tbq tsq : ℤ) : ℚ :=
  if tbq + tsq = 0 then 1/2
  else (tbq : ℚ) / ((tbq : ℚ) + (tsq : ℚ))

/-- Ascending stable insertion, modelling one step of `sorted` inside
`statistics.median`. -/
def insertAsc (x : ℤ) : List ℤ → List ℤ
  | [] => [x]
  | y :: ys => if x < y then x :: y :: ys else y :: insertAsc x ys

/-- Ascending sort of the quantities, for `statistics.median`. -/
def sortAsc (l : List ℤ) : List ℤ :=
  l.foldl (fun acc x => insertAsc x acc) []

/-- `statistics.median` on integers (mean of the two middle elements for even
length); only ever applied to non-empty lists in the source. -/
def medianInt (l : List ℤ) : ℚ :=
  let s := sortAsc l
  let n := s.length
  if n % 2 = 1 then ((s.getD (n / 2) 0 : ℤ) : ℚ)
  else (((s.getD (n / 2 - 1) 0 : ℤ) : ℚ) + ((s.getD (n / 2) 0 : ℤ) : ℚ)) / 2

/-- `OrderBookAnalyzer.detect_big_quantities` with the default 5x multiplier. -/
def detect_big_quantities (quantities : List ℤ) : ℤ :=
  if quantities = [] then 0
  else
    let threshold := medianInt quantities * 5
    ((quantities.filter (fun q => decide (threshold < (q : ℚ)))).length : ℤ)

/-- `OrderBookAnalyzer.calculate_spread`. -/
def calculate_spread (best_bid best_ask : ℚ) : ℚ :=
  if best_bid = 0 then 0 else (best_ask - best_bid) / best_bid

/-- The dictionary returned by `OrderBookAnalyzer.analyze_order_book`. -/
structure ObMetrics where
  sup_res : SupportResistance
  tbq : ℤ
  tsq : ℤ
  order_book_ratio : ℚ
  bid_ask_spread : ℚ
  big_bid_count : ℤ
  big_ask_count : ℤ
deriving DecidableEq, Repr

/-- `OrderBookAnalyzer.analyze_order_book`. -/
def analyze_order_book (bid_prices : List ℚ) (bid_quantities : List ℤ)
    (ask_prices : List ℚ) (ask_quantities : List ℤ) : ObMetrics :=
  let sup_res := calculate_sup_res bid_prices bid_quantities ask_prices ask_quantities
  let t := calculate_tbq_tsq bid_quantities ask_quantities
  let ob_ratio := calculate_order_book_ratio t.1 t.2
  let best_bid := bid_prices.headD 0
  let best_ask := ask_prices.headD 0
  let spread := calculate_spread best_bid best_ask
  { sup_res := sup_res
    tbq := t.1
    tsq := t.2
    order_book_ratio := ob_ratio
    bid_ask_spread := spread
    big_bid_count := detect_big_quantities bid_quantities
    big_ask_count := detect_big_quantities ask_quantities }

/-- Modelled from the spec wording of claim C3: top-3 bid levels by quantity
with ties broken by HIGHER PRICE (a lexicographic, not stable, ordering). -/
def levelGEPriceTie (a b : OrderBookLevel) : Prop :=
  b.quantity < a.quantity ∨ (a.quantity = b.quantity ∧ b.price ≤ a.price)

instance : DecidableRel levelGEPriceTie := fun a b =>
  inferInstanceAs (Decidable (b.quantity < a.quantity ∨ (a.quantity = b.quantity ∧ b.price ≤ a.price)))

/-- The support levels as claim C3 words them (ties broken by higher price). -/
def supportLevelsClaimed (bid_prices : List ℚ) (bid_quantities : List ℤ) : List (ℚ × ℤ) :=
  (padTo3 ((List.insertionSort levelGEPriceTie (mkLevels bid_prices bid_quantities)).take 3)).map
    (fun lv => (lv.price, lv.quantity))

/-! ## candle_score.py -/

/-- Weight configuration of `CandleScoreCalculator.__init__`. -/
structure CandleScoreCalculator where
  volume_weight : ℚ
  oi_weight : ℚ
  ob_weight : ℚ
  volatility_weight : ℚ
  greek_weight : ℚ
  spread_penalty_weight : ℚ
deriving DecidableEq, Repr

/-- The default weights of `CandleScoreCalculator.__init__`. -/
def defaultWeights : CandleScoreCalculator :=
  ⟨1, 8/10, 6/10, 5/10, 4/10, 3/10⟩

/-- `CandleScoreCalculator.calculate_volume_score`. -/
def calculate_volume_score (w : CandleScoreCalculator)
    (volume : ℤ) (avg_volume : Option ℤ) : ℚ :=
  let score : ℚ :=
    if ztruthy avg_volume && decide (0 < avg_volume.getD 0) then
      ((volume : ℚ) / ((avg_volume.getD 0 : ℤ) : ℚ)) * 1000
    else (volume : ℚ) / 100
  score * w.volume_weight

/-- `CandleScoreCalculator.calculate_oi_score` (the absolute `oi_change`
argument is unused by the source as well). -/
def calculate_oi_score (w : CandleScoreCalculator)
    (oi_change oi_change_pct : Option ℚ) : ℚ :=
  match oi_change_pct with
  | none => 0
  | some p => (|p| * 10000) * w.oi_weight

/-- `CandleScoreCalculator.calculate_orderbook_score`. -/
def calculate_orderbook_score (w : CandleScoreCalculator) (order_book_ratio : ℚ) : ℚ :=
  (|order_book_ratio - 1/2| * 2000) * w.ob_weight

/-- `CandleScoreCalculator.calculate_volatility_score`. -/
def calculate_volatility_score (w : CandleScoreCalculator) (high low close : ℚ) : ℚ :=
  if close = 0 then 0
  else (((high - low) / close) * 5000) * w.volatility_weight

/-- `CandleScoreCalculator.calculate_greek_score`. -/
def calculate_greek_score (w : CandleScoreCalculator) (gamma_spike : Option ℚ) : ℚ :=
  match gamma_spike with
  | none => 0
  | some g => (|g| * 1000) * w.greek_weight

/-- `CandleScoreCalculator.calculate_spread_penalty`. -/
def calculate_spread_penalty (w : CandleScoreCalculator) (bid_ask_spread : ℚ) : ℚ :=
  (bid_ask_spread * 5000) * w.spread_penalty_weight

/-- `CandleScoreCalculator.calculate_score`: the sequential accumulation with
its presence/truthiness gates (`if high and low and close:` for volatility). -/
def calculate_score (w : CandleScoreCalculator) (volume : ℤ) (avg_volume : Option ℤ)
    (oi_change oi_change_pct order_book_ratio high low close gamma_spike
      bid_ask_spread : Option ℚ) : ℚ :=
  let score : ℚ := 0
  let score := score + calculate_volume_score w volume avg_volume
  let score := match oi_change_pct with
    | some _ => score + calculate_oi_score w oi_change oi_change_pct
    | none => score
  let score := match order_book_ratio with
    | some r => score + calculate_orderbook_score w r
    | none => score
  let score := if qtruthy high && qtruthy low && qtruthy close then
      score + calculate_volatility_score w (high.getD 0) (low.getD 0) (close.getD 0)
    else score
  let score := match gamma_spike with
    | some _ => score + calculate_greek_score w gamma_spike
    | none => score
  let score := match bid_ask_spread with
    | some s => score - calculate_spread_penalty w s
    | none => score
  max score 0

/-- Modelled from the spec wording of claim C5 (component table of the spec):
every component is 0 exactly when its input is absent, the volatility term is
zero only when `close = 0`. -/
def candleScoreClaimed (w : CandleScoreCalculator) (volume : ℤ) (avg_volume : Option ℤ)
    (oi_change_pct order_book_ratio high low close gamma_spike
      bid_ask_spread : Option ℚ) : ℚ :=
  let volumeTerm : ℚ := match avg_volume with
    | some a => if 0 < a then ((volume : ℚ) / (a : ℚ)) * 1000 else (volume : ℚ) / 100
    | none => (volume : ℚ) / 100
  let oiTerm : ℚ := match oi_change_pct with
    | some p => |p| * 10000
    | none => 0
  let obTerm : ℚ := match order_book_ratio with
    | some r => |r - 1/2| * 2000
    | none => 0
  let volatilityTerm : ℚ := match high, low, close with
    | some h, some l, some c => if c = 0 then 0 else ((h - l) / c) * 5000
    | _, _, _ => 0
  let greekTerm : ℚ := match gamma_spike with
    | some g => |g| * 1000
    | none => 0
  let spreadTerm : ℚ := match bid_ask_spread with
    | some s => s * 5000
    | none => 0
  max (w.volume_weight * volumeTerm + w.oi_weight * oiTerm + w.ob_weight * obTerm
        + w.volatility_weight * volatilityTerm + w.greek_weight * greekTerm
        - w.spread_penalty_weight * spreadTerm) 0

/-- The amended closed form for claim C5: as the claimed one, except that the
volatility term is also 0 whenever any of `high`, `low`, `close` is zero
(the source gates it with Python truthiness `if high and low and close:`). -/
def candleScoreAmended (w : CandleScoreCalculator) (volume : ℤ) (avg_volume : Option ℤ)
    (oi_change_pct order_book_ratio high low close gamma_spike
      bid_ask_spread : Option ℚ) : ℚ :=
  let volumeTerm : ℚ := match avg_volume with
    | some a => if 0 < a then ((volume : ℚ) / (a : ℚ)) * 1000 else (volume : ℚ) / 100
    | none => (volume : ℚ) / 100
  let oiTerm : ℚ := match oi_change_pct with
    | some p => |p| * 10000
    | none => 0
  let obTerm : ℚ := match order_book_ratio with
    | some r => |r - 1/2| * 2000
    | none => 0
  let volatilityTerm : ℚ := match high, low, close with
    | some h, some l, some c =>
        if h ≠ 0 ∧ l ≠ 0 ∧ c ≠ 0 then ((h - l) / c) * 5000 else 0
    | _, _, _ => 0
  let greekTerm : ℚ := match gamma_spike with
    | some g => |g| * 1000
    | none => 0
  let spreadTerm : ℚ := match bid_ask_spread with
    | some s => s * 5000
    | none => 0
  max (w.volume_weight * volumeTerm + w.oi_weight * oiTerm + w.ob_weight * obTerm
        + w.volatility_weight * volatilityTerm + w.greek_weight * greekTerm
        - w.spread_penalty_weight * spreadTerm) 0

/-! ## metrics_calculator.py -/

/-- `MetricsCalculator.calculate_oi_change`. -/
def calculate_oi_change (current_oi previous_oi : ℤ) : ℚ × ℚ :=
  if previous_oi = 0 then (0, 0)
  else (((current_oi - previous_oi : ℤ) : ℚ),
        ((current_oi - previous_oi : ℤ) : ℚ) / ((previous_oi : ℤ) : ℚ))

/-- `MetricsCalculator.calculate_average_greek`. -/
def calculate_average_greek (greek_values : List ℚ) : Option ℚ :=
  if greek_values = [] then none
  else some (greek_values.sum / (greek_values.length : ℚ))

/-- `MetricsCalculator.calculate_gamma_spike`. -/
def calculate_gamma_spike (current_gamma previous_gamma : Option ℚ) : Option ℚ :=
  match current_gamma, previous_gamma with
  | some c, some p => if p = 0 then none else some ((c - p) / |p|)
  | _, _ => none

/-- Modelled from the spec wording of claim C3: the arithmetic mean of the
non-zero-price entries of a reported level triple. -/
def avgOfPairs (l : List (ℚ × ℤ)) : ℚ :=
  let ps := (l.filter (fun pr => decide (0 < pr.1))).map (fun pr => pr.1)
  if ps = [] then 0 else ps.sum / (ps.length : ℚ)

/-! ## candle_builder.py

Datetimes are seconds (`ℕ`); `minuteOfHour` models the Python `.minute`
attribute used by the completion check, and `candle_time` carries the
tick timestamp truncated to its minute. -/

/-- The `.minute` attribute of a datetime modelled as seconds. -/
def minuteOfHour (t : ℕ) : ℕ := (t / 60) % 60

/-- `TickReceivedEvent`, restricted to the fields the candle builder reads. -/
structure Tick where
  instrument_key : String
  timestamp : ℕ
  candle_time : ℕ
  ltp : ℚ
  volume : ℤ
  oi : ℤ
  previous_close : Option ℚ
  bid_prices : List ℚ
  bid_quantities : List ℤ
  ask_prices : List ℚ
  ask_quantities : List ℤ
  delta : Option ℚ
  gamma : Option ℚ
  theta : Option ℚ
  vega : Option ℚ
  rho : Option ℚ
  iv : Option ℚ
deriving DecidableEq, Repr

/-- `CandleData` accumulator of `candle_builder.py` (`open` is a Lean keyword,
hence `open_`). -/
structure CandleData where
  instrument_key : String
  candle_time : ℕ
  open_ : Option ℚ
  high : Option ℚ
  low : Option ℚ
  close : Option ℚ
  previous_close : Option ℚ
  volume : ℤ
  oi : ℤ
  oi_at_start : Option ℤ
  bid_prices_list : List (List ℚ)
  bid_quantities_list : List (List ℤ)
  ask_prices_list : List (List ℚ)
  ask_quantities_list : List (List ℤ)
  deltas : List ℚ
  gammas : List ℚ
  thetas : List ℚ
  vegas : List ℚ
  rhos : List ℚ
  ivs : List ℚ
  first_gamma : Option ℚ
  last_gamma : Option ℚ
  tick_count : ℕ
  first_tick_time : Option ℕ
  last_tick_time : Option ℕ
deriving DecidableEq, Repr

/-- `CandleData.__init__`. -/
def initCandleData (instrument_key : String) (candle_time : ℕ) : CandleData :=
  { instrument_key := instrument_key
    candle_time := candle_time
    open_ := none, high := none, low := none, close := none, previous_close := none
    volume := 0, oi := 0, oi_at_start := none
    bid_prices_list := [], bid_quantities_list := []
    ask_prices_list := [], ask_quantities_list := []
    deltas := [], gammas := [], thetas := [], vegas := [], rhos := [], ivs := []
    first_gamma := none, last_gamma := none
    tick_count := 0, first_tick_time := none, last_tick_time := none }

/-- `CandleData.add_tick`. -/
def addTick (c : CandleData) (t : Tick) : CandleData :=
  let c := { c with tick_count := c.tick_count + 1 }
  let c := if c.open_ = none then
      { c with open_ := some t.ltp, high := some t.ltp, low := some t.ltp,
               previous_close := t.previous_close, oi_at_start := some t.oi,
               first_tick_time := some t.timestamp, first_gamma := t.gamma }
    else c
  let c := { c with close := some t.ltp,
                    high := some (max (c.high.getD t.ltp) t.ltp),
                    low := some (min (c.low.getD t.ltp) t.ltp),
                    volume := t.volume, oi := t.oi }
  let c := if t.bid_prices ≠ [] ∧ t.ask_prices ≠ [] then
      { c with bid_prices_list := c.bid_prices_list ++ [t.bid_prices],
               bid_quantities_list := c.bid_quantities_list ++ [t.bid_quantities],
               ask_prices_list := c.ask_prices_list ++ [t.ask_prices],
               ask_quantities_list := c.ask_quantities_list ++ [t.ask_quantities] }
    else c
  let c := match t.delta with
    | some v => { c with deltas := c.deltas ++ [v] }
    | none => c
  let c := match t.gamma with
    | some v => { c with gammas := c.gammas ++ [v], last_gamma := some v }
    | none => c
  let c := match t.theta with
    | some v => { c with thetas := c.thetas ++ [v] }
    | none => c
  let c := match t.vega with
    | some v => { c with vegas := c.vegas ++ [v] }
    | none => c
  let c := match t.rho with
    | some v => { c with rhos := c.rhos ++ [v] }
    | none => c
  let c := match t.iv with
    | some v => { c with ivs := c.ivs ++ [v] }
    | none => c
  { c with last_tick_time := some t.timestamp }

/-- `CandleBuilder._calculate_gamma_spike` (the accumulator-level wrapper with
its truthiness guard and the `spike if spike else Decimal(0)` fallback). -/
def candle_gamma_spike (c : CandleData) : ℚ :=
  if qtruthy c.first_gamma && qtruthy c.last_gamma then
    match calculate_gamma_spike c.last_gamma c.first_gamma with
    | some s => if s = 0 then 0 else s
    | none => 0
  else 0

/-- `CandleCompletedEvent`, restricted to the fields the claims mention; the
order-book derived columns are grouped in `ob`, which is `none` exactly when
`_calculate_order_book_metrics` returns the empty dictionary. -/
structure CandleEvent where
  instrument_key : String
  candle_timestamp : ℕ
  open_ : Option ℚ
  high : Option ℚ
  low : Option ℚ
  close : Option ℚ
  previous_close : Option ℚ
  volume : ℤ
  oi : ℤ
  oi_change : Option ℚ
  oi_change_pct : Option ℚ
  vwap : Option ℚ
  ob : Option ObMetrics
  avg_delta : Option ℚ
  avg_gamma : Option ℚ
  avg_theta : Option ℚ
  avg_vega : Option ℚ
  avg_rho : Option ℚ
  avg_iv : Option ℚ
  gamma_spike : ℚ
  candle_score : ℚ
  tick_count : ℕ
deriving DecidableEq, Repr

/-- Association-list lookup with Python `dict` semantics (each key occurs at
most once; `setAssoc` replaces in place or appends). -/
def lookupAssoc {α : Type} [DecidableEq α] {β : Type} :
    List (α × β) → α → Option β
  | [], _ => none
  | (k, v) :: rest, key => if k = key then some v else lookupAssoc rest key

/-- `dict.__setitem__`: replace the value in place, else append. -/
def setAssoc {α : Type} [DecidableEq α] {β : Type} :
    List (α × β) → α → β → List (α × β)
  | [], key, value => [(key, value)]
  | (k, v) :: rest, key, value =>
      if k = key then (k, value) :: rest else (k, v) :: setAssoc rest key value

/-- `CandleBuilder._calculate_order_book_metrics`: empty dict when no snapshot
was stored, else the analyzer on the last snapshot. -/
def calculate_order_book_metrics (c : CandleData) : Option ObMetrics :=
  if c.bid_prices_list = [] then none
  else some (analyze_order_book (c.bid_prices_list.getLastD [])
      (c.bid_quantities_list.getLastD []) (c.ask_prices_list.getLastD [])
      (c.ask_quantities_list.getLastD []))

/-- `CandleBuilder._build_candle_event` (with `previous_candles` passed in
explicitly; `vwap` is the close, `price_vwap_deviation` is constant 0 and is
omitted). -/
def buildCandleEvent (previous_candles : List (String × CandleData))
    (c : CandleData) : CandleEvent :=
  let ob := calculate_order_book_metrics c
  let gspike := candle_gamma_spike c
  let oi_pair : Option (ℚ × ℚ) :=
    match lookupAssoc previous_candles c.instrument_key with
    | some prev => if 0 < prev.oi then some (calculate_oi_change c.oi prev.oi) else none
    | none => none
  let score := calculate_score defaultWeights c.volume none
      (oi_pair.map (fun p => p.1)) (oi_pair.map (fun p => p.2))
      (ob.map (fun m => m.order_book_ratio)) c.high c.low c.close
      (some gspike) (ob.map (fun m => m.bid_ask_spread))
  { instrument_key := c.instrument_key
    candle_timestamp := c.candle_time
    open_ := c.open_, high := c.high, low := c.low, close := c.close
    previous_close := c.previous_close
    volume := c.volume, oi := c.oi
    oi_change := oi_pair.map (fun p => p.1)
    oi_change_pct := oi_pair.map (fun p => p.2)
    vwap := c.close
    ob := ob
    avg_delta := calculate_average_greek c.deltas
    avg_gamma := calculate_average_greek c.gammas
    avg_theta := calculate_average_greek c.thetas
    avg_vega := calculate_average_greek c.vegas
    avg_rho := calculate_average_greek c.rhos
    avg_iv := calculate_average_greek c.ivs
    gamma_spike := gspike
    candle_score := score
    tick_count := c.tick_count }

/-- Mutable state of `CandleBuilder` (the two dictionaries keep Python's
insertion order). -/
structure BuilderState where
  active_candles : List ((String × ℕ) × CandleData)
  previous_candles : List (String × CandleData)
  last_minute_check : Option ℕ
deriving DecidableEq, Repr

/-- The initial `CandleBuilder` state. -/
def emptyBuilder : BuilderState := ⟨[], [], none⟩

/-- `CandleBuilder._handle_tick` (including `_get_or_create_candle`): look up
or lazily create the accumulator for `(instrument_key, candle_time)` and add
the tick to it. -/
def handleTick (s : BuilderState) (t : Tick) : BuilderState :=
  let key := (t.instrument_key, t.candle_time)
  let c := match lookupAssoc s.active_candles key with
    | some c => c
    | none => initCandleData t.instrument_key t.candle_time
  { s with active_candles := setAssoc s.active_candles key (addTick c t) }

/-- One iteration step of the loop in `CandleBuilder._check_and_complete_candles`:
the accumulated state is (previous-candle cache, emitted events, completed keys). -/
def completeStep (current_time : ℕ)
    (acc : List (String × CandleData) × List CandleEvent × List (String × ℕ))
    (kc : (String × ℕ) × CandleData) :
    List (String × CandleData) × List CandleEvent × List (String × ℕ) :=
  if minuteOfHour current_time ≠ minuteOfHour kc.2.candle_time then
    (setAssoc acc.1 kc.2.instrument_key kc.2,
     acc.2.1 ++ [buildCandleEvent acc.1 kc.2],
     acc.2.2 ++ [kc.1])
  else acc

/-- `CandleBuilder._check_and_complete_candles`: finalize every active
accumulator whose candle minute (minute-of-hour) differs from the current
time's minute, store each as previous candle, and delete it. -/
def checkAndComplete (current_time : ℕ) (s : BuilderState) :
    BuilderState × List CandleEvent :=
  let res := s.active_candles.foldl (completeStep current_time)
      (s.previous_candles, [], [])
  ({ s with
      active_candles := s.active_candles.filter (fun kc => decide (kc.1 ∉ res.2.2))
      previous_candles := res.1 },
   res.2.1)

/-- The per-tick handler registered in `CandleBuilder.start`: handle the tick,
then run the completion sweep when the tick's candle minute differs from
`_last_minute_check` (with `None` unequal to every minute). -/
def tickHandler (s : BuilderState) (t : Tick) : BuilderState × List CandleEvent :=
  let s1 := handleTick s t
  if s1.last_minute_check ≠ some (minuteOfHour t.candle_time) then
    let res := checkAndComplete t.timestamp s1
    ({ res.1 with last_minute_check := some (minuteOfHour t.candle_time) }, res.2)
  else (s1, [])

/-- Run the handler over a list of ticks, accumulating the emitted candles. -/
def runTicks (s : BuilderState) : List Tick → BuilderState × List CandleEvent
  | [] => (s, [])
  | t :: ts =>
      let res := tickHandler s t
      let rest := runTicks res.1 ts
      (rest.1, res.2 ++ rest.2)

/-- A tick carrying only price/volume/OI/gamma data (no order book, no other
Greeks), with `candle_time` derived by minute truncation. -/
def mkTick (instrument_key : String) (timestamp : ℕ) (ltp : ℚ)
    (volume oi : ℤ) (gamma : Option ℚ) : Tick :=
  { instrument_key := instrument_key
    timestamp := timestamp
    candle_time := 60 * (timestamp / 60)
    ltp := ltp
    volume := volume, oi := oi
    previous_close := none
    bid_prices := [], bid_quantities := [], ask_prices := [], ask_quantities := []
    delta := none, gamma := gamma, theta := none, vega := none, rho := none, iv := none }

/-- The gamma spike as claim C8 words it: `(last - first) / |first|` whenever
both are present and `first ≠ 0`, else 0. -/
def gammaSpikeClaimed (first_gamma last_gamma : Option ℚ) : ℚ :=
  match first_gamma, last_gamma with
  | some f, some l => if f = 0 then 0 else (l - f) / |f|
  | _, _ => 0

/-- The amended gamma spike for claim C8: also 0 when the LAST gamma is zero
(the source guards with Python truthiness `if first_gamma and last_gamma:`). -/
def gammaSpikeAmended (first_gamma last_gamma : Option ℚ) : ℚ :=
  match first_gamma, last_gamma with
  | some f, some l => if f ≠ 0 ∧ l ≠ 0 then (l - f) / |f| else 0
  | _, _ => 0

/-! ## Theorems -/

/-- Helper: the short-covering bonus of `calculate_panic_score` equals the
closed-form bonus (the truthiness guard is redundant there, since
`|v| > 1/100` already forces `v ≠ 0`). -/
theorem oi_bonus_eq (oi : Option ℚ) :
    (if qtruthy oi && decide ((1 : ℚ)/100 < |oi.getD 0|) then (30 : ℚ) + 10 else 30)
      = 30 + (match oi with
        | some v => if (1 : ℚ)/100 < |v| then (10 : ℚ) else 0
        | none => 0) := by
  cases oi with
  | none => norm_num [qtruthy]
  | some v =>
      show (if qtruthy (some v) && decide ((1 : ℚ)/100 < |(some v).getD 0|)
            then (30 : ℚ) + 10 else 30)
          = 30 + (if (1 : ℚ)/100 < |v| then (10 : ℚ) else 0)
      by_cases h : (1 : ℚ)/100 < |v|
      · have hv : v ≠ 0 := by
          intro h0
          rw [h0, abs_zero] at h
          norm_num at h
        have hb : (qtruthy (some v) && decide ((1 : ℚ)/100 < |(some v).getD 0|)) = true := by
          simp only [qtruthy, Option.getD_some, Bool.and_eq_true, bne_iff_ne, ne_eq,
            decide_eq_true_eq]
          exact ⟨hv, h⟩
        rw [hb, if_pos h]
        norm_num
      · have hb : (qtruthy (some v) && decide ((1 : ℚ)/100 < |(some v).getD 0|)) = false := by
          simp only [Option.getD_some, Bool.and_eq_false_iff, decide_eq_false_iff_not]
          exact Or.inr h
        rw [hb, if_neg h]
        norm_num

/-- Helper: the order-book bonus of `calculate_panic_score` equals the
closed-form bonus that requires the ratio to be nonzero. -/
theorem ob_bonus_eq (ratio : Option ℚ) :
    (if qtruthy ratio && decide (ratio.getD 0 < (1 : ℚ)/4) then (20 : ℚ) + 10 else 20)
      = 20 + (match ratio with
        | some v => if v ≠ 0 ∧ v < (1 : ℚ)/4 then (10 : ℚ) else 0
        | none => 0) := by
  cases ratio with
  | none => norm_num [qtruthy]
  | some v =>
      show (if qtruthy (some v) && decide ((some v).getD 0 < (1 : ℚ)/4)
            then (20 : ℚ) + 10 else 20)
          = 20 + (if v ≠ 0 ∧ v < (1 : ℚ)/4 then (10 : ℚ) else 0)
      by_cases hv : v = 0
      · have hb : (qtruthy (some v) && decide ((some v).getD 0 < (1 : ℚ)/4)) = false := by
          simp only [qtruthy, Bool.and_eq_false_iff, bne_iff_ne, ne_eq, not_not,
            Bool.not_eq_true]
          exact Or.inl (by simpa using hv)
        have hc : ¬ (v ≠ 0 ∧ v < (1 : ℚ)/4) := fun hcontra => hcontra.1 hv
        rw [hb, if_neg hc]
        norm_num
      · by_cases h : v < (1 : ℚ)/4
        · have hb : (qtruthy (some v) && decide ((some v).getD 0 < (1 : ℚ)/4)) = true := by
            simp only [qtruthy, Option.getD_some, Bool.and_eq_true, bne_iff_ne, ne_eq,
              decide_eq_true_eq]
            exact ⟨hv, h⟩
          have hpq : v ≠ 0 ∧ v < (1 : ℚ)/4 := ⟨hv, h⟩
          rw [hb, if_pos hpq]
          norm_num
        · have hb : (qtruthy (some v) && decide ((some v).getD 0 < (1 : ℚ)/4)) = false := by
            simp only [Option.getD_some, Bool.and_eq_false_iff, decide_eq_false_iff_not]
            exact Or.inr h
          have hc : ¬ (v ≠ 0 ∧ v < (1 : ℚ)/4) := fun hcontra => h hcontra.2
          rw [hb, if_neg hc]
          norm_num

/-- C1 (counterexample): the panic score does NOT always equal the claimed
sum.  With `order_book_panic` fired and `order_book_ratio = 0` the source's
truthiness guard `if order_book_ratio:` suppresses the extreme-imbalance
bonus (code: 20, claim: 30).  Moreover on the S1 inputs the claimed sum
itself evaluates to 100, not to the 120 stated by the claim (S1 has
`|oi_change_pct| = 0.008 ≤ 0.01` and `order_book_ratio = 0.28 ≥ 0.25`, so
neither bonus applies). -/
theorem C1_panic_score_counterexample :
    calculate_panic_score false false true false false none (some 0)
        ≠ panicScoreClaimed false false true false false none (some 0)
      ∧ panicRawClaimed true true true true true (some (-(8 : ℚ)/1000)) (some (28/100))
          ≠ 120 := by
  constructor
  · with_unfolding_all decide
  · with_unfolding_all decide

/-- C1 (amended): the panic score equals the claimed conditional sum capped at
100, except that the order-book bonus requires the ratio to be present,
nonzero and below 0.25; on the S1 inputs all five features fire through
`detect` and the uncapped sum is 100 (already at the cap), so the returned
panic score is 100. -/
theorem C1_panic_score_amended :
    (∀ (sc gs obp ld sb : Bool) (oi ratio : Option ℚ),
        calculate_panic_score sc gs obp ld sb oi ratio
          = min (panicRawAmended sc gs obp ld sb oi ratio) 100)
      ∧ (detect defaultDetector (some (-(8 : ℚ)/1000)) (some 185) (some 182)
            (some (365/2)) (some (55/100)) (some (28/100)) (some (8/1000))).short_covering
          = true
      ∧ (detect defaultDetector (some (-(8 : ℚ)/1000)) (some 185) (some 182)
            (some (365/2)) (some (55/100)) (some (28/100)) (some (8/1000))).gamma_spike_detected
          = true
      ∧ (detect defaultDetector (some (-(8 : ℚ)/1000)) (some 185) (some 182)
            (some (365/2)) (some (55/100)) (some (28/100)) (some (8/1000))).order_book_panic
          = true
      ∧ (detect defaultDetector (some (-(8 : ℚ)/1000)) (some 185) (some 182)
            (some (365/2)) (some (55/100)) (some (28/100)) (some (8/1000))).liquidity_drying
          = true
      ∧ (detect defaultDetector (some (-(8 : ℚ)/1000)) (some 185) (some 182)
            (some (365/2)) (some (55/100)) (some (28/100)) (some (8/1000))).strong_buying
          = true
      ∧ panicRawAmended true true true true true (some (-(8 : ℚ)/1000)) (some (28/100)) = 100
      ∧ (detect defaultDetector (some (-(8 : ℚ)/1000)) (some 185) (some 182)
            (some (365/2)) (some (55/100)) (some (28/100)) (some (8/1000))).panic_score
          = 100 := by
  refine ⟨?_, by with_unfolding_all decide, by with_unfolding_all decide,
    by with_unfolding_all decide, by with_unfolding_all decide, by with_unfolding_all decide,
    by with_unfolding_all decide, by with_unfolding_all decide⟩
  intro sc gs obp ld sb oi ratio
  unfold calculate_panic_score panicRawAmended
  rw [oi_bonus_eq, ob_bonus_eq]
  cases sc <;> cases gs <;> cases obp <;> cases ld <;> cases sb <;> norm_num

/-- C2: `determine_state_and_recommendation` implements exactly the three
ordered rules of the spec (branches three and four of the source both return
the neutral fallback). -/
theorem C2_state_rules (d : SellerStateDetector) (panic_score : ℚ)
    (short_covering : Bool) (signals_count : ℕ) :
    determine_state_and_recommendation d panic_score short_covering signals_count
      = determineClaimed d.panic_score_buy_threshold panic_score short_covering
          signals_count := by
  unfold determine_state_and_recommendation determineClaimed
  split_ifs <;> rfl

/-- Helper for C10: the result tuple of `determine_state_and_recommendation`
recommends BUY exactly in the SELLER_PANIC state, never SELL, and has
confidence in `[1/2, 9/10]` whenever the buy threshold is at least 50. -/
theorem determine_props (d : SellerStateDetector)
    (hthr : (50 : ℚ) ≤ d.panic_score_buy_threshold) (score : ℚ) (sc : Bool) (n : ℕ) :
    ((determine_state_and_recommendation d score sc n).2.1 = Recommendation.BUY
        ↔ (determine_state_and_recommendation d score sc n).1 = SellerState.SELLER_PANIC)
      ∧ (determine_state_and_recommendation d score sc n).2.1 ≠ Recommendation.SELL
      ∧ (1/2 : ℚ) ≤ (determine_state_and_recommendation d score sc n).2.2
      ∧ (determine_state_and_recommendation d score sc n).2.2 ≤ 9/10 := by
  unfold determine_state_and_recommendation
  split_ifs with h1 h2 h3
  · refine ⟨by simp, by simp, le_min (by norm_num) (by linarith), min_le_left _ _⟩
  · exact ⟨by simp, by simp, by norm_num, by norm_num⟩
  · exact ⟨by simp, by simp, by norm_num, by norm_num⟩
  · exact ⟨by simp, by simp, by norm_num, by norm_num⟩

/-- C10: for every input to `detect` (with the default thresholds), the
recommendation is BUY exactly when the state is SELLER_PANIC, SELL is never
produced, and the confidence lies in `[0.5, 0.9]`. -/
theorem C10_detect_invariants
    (oi_change_pct price previous_close vwap gamma_spike order_book_ratio
      bid_ask_spread : Option ℚ) :
    ((detect defaultDetector oi_change_pct price previous_close vwap gamma_spike
          order_book_ratio bid_ask_spread).recommendation = Recommendation.BUY
        ↔ (detect defaultDetector oi_change_pct price previous_close vwap gamma_spike
            order_book_ratio bid_ask_spread).state = SellerState.SELLER_PANIC)
      ∧ (detect defaultDetector oi_change_pct price previous_close vwap gamma_spike
            order_book_ratio bid_ask_spread).recommendation ≠ Recommendation.SELL
      ∧ (1/2 : ℚ) ≤ (detect defaultDetector oi_change_pct price previous_close vwap
            gamma_spike order_book_ratio bid_ask_spread).confidence
      ∧ (detect defaultDetector oi_change_pct price previous_close vwap gamma_spike
            order_book_ratio bid_ask_spread).confidence ≤ 9/10 :=
  determine_props defaultDetector (by norm_num [defaultDetector]) _ _ _

/-- C4: the order-book ratio is `tbq / (tbq + tsq)` whenever the total is
positive, hence lies in `[0, 1]`, and is the neutral `1/2` on an empty book. -/
theorem C4_order_book_ratio (tbq tsq : ℤ) (hb : 0 ≤ tbq) (hs : 0 ≤ tsq) :
    (0 < tbq + tsq →
        calculate_order_book_ratio tbq tsq = (tbq : ℚ) / ((tbq : ℚ) + (tsq : ℚ)))
      ∧ (tbq + tsq = 0 → calculate_order_book_ratio tbq tsq = 1/2)
      ∧ 0 ≤ calculate_order_book_ratio tbq tsq
      ∧ calculate_order_book_ratio tbq tsq ≤ 1 := by
  unfold calculate_order_book_ratio
  by_cases h0 : tbq + tsq = 0
  · rw [if_pos h0]
    exact ⟨fun hlt => absurd h0 (by omega), fun _ => rfl, by norm_num, by norm_num⟩
  · have hpos : 0 < tbq + tsq := lt_of_le_of_ne (by omega) (Ne.symm h0)
    have hposq : (0 : ℚ) < (tbq : ℚ) + (tsq : ℚ) := by
      exact_mod_cast hpos
    refine ⟨fun _ => by rw [if_neg h0], fun h => absurd h h0, ?_, ?_⟩
    · rw [if_neg h0]
      exact div_nonneg (by exact_mod_cast hb) (le_of_lt hposq)
    · rw [if_neg h0]
      rw [div_le_one hposq]
      have : (0 : ℚ) ≤ (tsq : ℚ) := by exact_mod_cast hs
      linarith

/-- C4 (witness): the theorem applied to the S3 totals `tbq = 6900`,
`tsq = 6450` (ratio `46/89 ≈ 0.5169`). -/
theorem C4_order_book_ratio_witness :
    (0 : ℤ) ≤ 6900 ∧ (0 : ℤ) ≤ 6450
      ∧ calculate_order_book_ratio 6900 6450 = 46/89
      ∧ 0 ≤ calculate_order_book_ratio 6900 6450
      ∧ calculate_order_book_ratio 6900 6450 ≤ 1 := by
  have h := C4_order_book_ratio 6900 6450 (by norm_num) (by norm_num)
  refine ⟨by norm_num, by norm_num, ?_, h.2.2.1, h.2.2.2⟩
  rw [h.1 (by norm_num)]
  norm_num

/-- C5 (counterexample): the candle score is NOT always the claimed weighted
sum: for a candle with `high = 5`, `low = 0`, `close = 2` (all present) and
everything else absent, the source's truthiness guard `if high and low and
close:` drops the volatility component (code: 0, claimed: 6250). -/
theorem C5_candle_score_counterexample :
    calculate_score defaultWeights 0 none none none none (some 5) (some 0) (some 2)
        none none
      ≠ candleScoreClaimed defaultWeights 0 none none none (some 5) (some 0) (some 2)
          none none := by
  with_unfolding_all decide

set_option maxHeartbeats 2000000

/-- C5 (amended): the candle score equals
`max(0, weighted_sum - weighted_spread_penalty)` with the components of the
spec table, except that the volatility component is zero not only when its
inputs are absent or `close = 0` but whenever any of `high`, `low`, `close`
is zero. -/
theorem C5_candle_score_amended (w : CandleScoreCalculator) (volume : ℤ)
    (avg_volume : Option ℤ)
    (oi_change oi_change_pct order_book_ratio high low close gamma_spike
      bid_ask_spread : Option ℚ) :
    calculate_score w volume avg_volume oi_change oi_change_pct order_book_ratio
        high low close gamma_spike bid_ask_spread
      = candleScoreAmended w volume avg_volume oi_change_pct order_book_ratio
          high low close gamma_spike bid_ask_spread := by
  unfold calculate_score candleScoreAmended calculate_volume_score calculate_oi_score
    calculate_orderbook_score calculate_volatility_score calculate_greek_score
    calculate_spread_penalty
  rcases avg_volume with _ | a <;>
    rcases oi_change_pct with _ | p <;>
    rcases order_book_ratio with _ | r <;>
    rcases high with _ | h <;>
    rcases low with _ | l <;>
    rcases close with _ | c <;>
    rcases gamma_spike with _ | g <;>
    rcases bid_ask_spread with _ | s <;>
    simp only [qtruthy, ztruthy, Bool.and_eq_true, bne_iff_ne, ne_eq,
      decide_eq_true_eq, Option.getD_some, Bool.false_and, Bool.and_false,
      Bool.true_and, Bool.and_true, Bool.false_eq_true, if_false] <;>
    first
      | (congr 1 <;> ring1)
      | (split_ifs <;>
          first
            | (congr 1 <;> ring1)
            | ring1
            | tauto
            | (exfalso; omega))

/-- C8 (counterexample): the gamma spike at finalization is NOT
`(last - first) / |first|` whenever both gammas are present and the first is
nonzero: an accumulator built from a tick with gamma 0.5 followed by a tick
with gamma 0 returns 0 (the truthiness guard `if first_gamma and last_gamma:`
drops the computation), while the claimed value is -1. -/
theorem C8_gamma_spike_counterexample :
    candle_gamma_spike (addTick (addTick (initCandleData "I" 0)
          (mkTick "I" 0 1 0 0 (some (1/2)))) (mkTick "I" 10 1 0 0 (some 0)))
      ≠ gammaSpikeClaimed
          (addTick (addTick (initCandleData "I" 0) (mkTick "I" 0 1 0 0 (some (1/2))))
            (mkTick "I" 10 1 0 0 (some 0))).first_gamma
          (addTick (addTick (initCandleData "I" 0) (mkTick "I" 0 1 0 0 (some (1/2))))
            (mkTick "I" 10 1 0 0 (some 0))).last_gamma := by
  with_unfolding_all decide

/-- C8 (amended): at finalization the gamma spike is
`(last_gamma - first_gamma) / |first_gamma|` whenever both observed gammas
are present and BOTH are nonzero, and 0 otherwise. -/
theorem C8_gamma_spike_amended (c : CandleData) :
    candle_gamma_spike c = gammaSpikeAmended c.first_gamma c.last_gamma := by
  unfold candle_gamma_spike gammaSpikeAmended calculate_gamma_spike
  rcases c.first_gamma with _ | f <;> rcases c.last_gamma with _ | l
  · simp [qtruthy]
  · simp [qtruthy]
  · simp [qtruthy]
  · by_cases hf0 : f = 0
    · simp [qtruthy, hf0]
    · by_cases hl0 : l = 0
      · simp [qtruthy, hf0, hl0]
      · have hcond : (qtruthy (some f) && qtruthy (some l)) = true := by
          simp [qtruthy, hf0, hl0]
        rw [hcond, if_pos rfl]
        show (match (if f = 0 then none else some ((l - f) / |f|)) with
              | some s => if s = 0 then 0 else s
              | none => (0 : ℚ))
            = if f ≠ 0 ∧ l ≠ 0 then (l - f) / |f| else 0
        rw [if_neg hf0]
        show (if (l - f) / |f| = 0 then 0 else (l - f) / |f|)
          = if f ≠ 0 ∧ l ≠ 0 then (l - f) / |f| else 0
        rw [if_pos (show f ≠ 0 ∧ l ≠ 0 from ⟨hf0, hl0⟩)]
        by_cases hs : (l - f) / |f| = 0
        · rw [if_pos hs, hs]
        · rw [if_neg hs]

/-! ### Lemmas for claim C3 -/

/-- Every quantity of a zipped level list comes from the quantity array. -/
theorem mem_mkLevels_quantity :
    ∀ (bp : List ℚ) (bq : List ℤ) (lv : OrderBookLevel),
      lv ∈ mkLevels bp bq → lv.quantity ∈ bq := by
  intro bp
  induction bp with
  | nil => intro bq lv h; simp [mkLevels] at h
  | cons p ps ih =>
      intro bq lv h
      cases bq with
      | nil => simp [mkLevels] at h
      | cons q qs =>
          simp only [mkLevels, List.zipWith_cons_cons, List.mem_cons] at h
          rcases h with h | h
          · rw [h]
            exact List.mem_cons_self _ _
          · exact List.mem_cons_of_mem _ (ih qs lv h)

/-- Stability of the stable descending sort, step case: inserting a level of
quantity `q` puts it right after the existing levels of quantity `q`. -/
theorem filter_orderedInsert_eq (a : OrderBookLevel) (q : ℤ) (ha : a.quantity = q) :
    ∀ l : List OrderBookLevel,
      List.filter (fun lv => decide (lv.quantity = q)) (List.orderedInsert levelGE a l)
        = a :: List.filter (fun lv => decide (lv.quantity = q)) l := by
  intro l
  induction l with
  | nil => simp [List.orderedInsert, ha]
  | cons b t ih =>
      by_cases h : levelGE a b
      · simp only [List.orderedInsert, if_pos h]
        simp [List.filter_cons, ha]
      · have hbq : ¬ (b.quantity = q) := by
          intro hb
          exact h (le_of_eq (hb.trans ha.symm))
        simp only [List.orderedInsert, if_neg h]
        simp [List.filter_cons, hbq, ih]

/-- Stability, disjoint step case: inserting a level of another quantity does
not change the levels of quantity `q`. -/
theorem filter_orderedInsert_ne (a : OrderBookLevel) (q : ℤ) (ha : a.quantity ≠ q) :
    ∀ l : List OrderBookLevel,
      List.filter (fun lv => decide (lv.quantity = q)) (List.orderedInsert levelGE a l)
        = List.filter (fun lv => decide (lv.quantity = q)) l := by
  intro l
  induction l with
  | nil => simp [List.orderedInsert, ha]
  | cons b t ih =>
      by_cases h : levelGE a b
      · simp only [List.orderedInsert, if_pos h]
        simp [List.filter_cons, ha]
      · simp only [List.orderedInsert, if_neg h]
        simp [List.filter_cons, ih]

/-- Stability of `sortLevelsDesc`: for every quantity value, the subsequence
of levels carrying that quantity is exactly the one of the input (ties keep
the input order). -/
theorem filter_sortLevelsDesc (l : List OrderBookLevel) (q : ℤ) :
    List.filter (fun lv => decide (lv.quantity = q)) (sortLevelsDesc l)
      = List.filter (fun lv => decide (lv.quantity = q)) l := by
  unfold sortLevelsDesc
  induction l with
  | nil => rfl
  | cons a t ih =>
      simp only [List.insertionSort]
      by_cases ha : a.quantity = q
      · rw [filter_orderedInsert_eq a q ha, ih]
        simp [List.filter_cons, ha]
      · rw [filter_orderedInsert_ne a q ha, ih]
        simp [List.filter_cons, ha]

/-- The sort is a permutation of the input level list. -/
theorem sortLevelsDesc_perm (l : List OrderBookLevel) : (sortLevelsDesc l).Perm l :=
  List.perm_insertionSort levelGE l

/-- The sort is descending in quantity. -/
theorem sortLevelsDesc_sorted (l : List OrderBookLevel) :
    List.Sorted levelGE (sortLevelsDesc l) :=
  List.sorted_insertionSort levelGE l

/-- The padded top-three has length three. -/
theorem padTo3_take_length (l : List OrderBookLevel) : (padTo3 (l.take 3)).length = 3 := by
  simp only [padTo3, List.length_append, List.length_replicate, List.length_take]
  omega

/-- The reported (price, quantity) mean equals the level-list mean. -/
theorem avgOfPairs_map (l : List OrderBookLevel) :
    avgOfPairs (l.map (fun lv => (lv.price, lv.quantity))) = avgNonzero l := by
  unfold avgOfPairs avgNonzero
  rw [List.filter_map, List.map_map]
  rfl

/-- The padded top-three is descending in quantity when all real quantities
are non-negative. -/
theorem padTo3_take_pairwise (l : List OrderBookLevel)
    (hpos : ∀ lv ∈ l, 0 ≤ lv.quantity) :
    List.Pairwise levelGE (padTo3 ((sortLevelsDesc l).take 3)) := by
  have hsorted : List.Sorted levelGE (sortLevelsDesc l) := sortLevelsDesc_sorted l
  have htake : List.Pairwise levelGE ((sortLevelsDesc l).take 3) :=
    hsorted.sublist (List.take_sublist 3 _)
  unfold padTo3
  rw [List.pairwise_append]
  refine ⟨htake, ?_, ?_⟩
  · exact List.pairwise_replicate.mpr (Or.inr le_rfl)
  · intro x hx y hy
    have hx2 : x ∈ sortLevelsDesc l := (List.take_sublist 3 _).mem hx
    have hx3 : x ∈ l := (sortLevelsDesc_perm l).mem_iff.mp hx2
    have hy0 : y = OrderBookLevel.mk 0 0 := List.eq_of_mem_replicate hy
    rw [hy0]
    exact hpos x hx3

/-- Dominance: every level the sort drops after the first three has quantity
at most that of every kept level. -/
theorem sortLevelsDesc_take_drop (l : List OrderBookLevel) :
    ∀ x ∈ (sortLevelsDesc l).take 3, ∀ y ∈ (sortLevelsDesc l).drop 3,
      y.quantity ≤ x.quantity := by
  intro x hx y hy
  exact (sortLevelsDesc_sorted l).rel_of_mem_take_of_mem_drop hx hy

/-- C3 (counterexample): the top-3 support levels do NOT break quantity ties
by higher price.  Python's `sorted` is stable, so on the book with bids
`(1, 5), (2, 5)` the source reports `(1,5)` first (input order), while the
claim requires `(2,5)` first. -/
theorem C3_sup_res_counterexample :
    (calculate_sup_res [1, 2] [5, 5] [] []).support_levels = [(1, 5), (2, 5), (0, 0)]
      ∧ supportLevelsClaimed [1, 2] [5, 5] = [(2, 5), (1, 5), (0, 0)]
      ∧ (calculate_sup_res [1, 2] [5, 5] [] []).support_levels
          ≠ supportLevelsClaimed [1, 2] [5, 5] := by
  refine ⟨?_, ?_, ?_⟩ <;> with_unfolding_all decide

/-- C3 (amended): the top-3 support levels are the three bid entries with the
largest quantities — every dropped entry's quantity is at most every kept
one's — reported in descending-quantity order, with ties kept in input order
(the sort is stable), padded with `(0, 0)`, and `support` is the mean of the
non-zero-price reported prices; symmetrically on the ask side; on the S3
book the result is exactly the one the claim states. -/
theorem C3_sup_res_amended (bp : List ℚ) (bq : List ℤ) (ap : List ℚ) (aq : List ℤ)
    (hbq : ∀ q ∈ bq, 0 ≤ q) (haq : ∀ q ∈ aq, 0 ≤ q) :
    ((calculate_sup_res bp bq ap aq).support_levels.length = 3
      ∧ (calculate_sup_res bp bq ap aq).support_levels
          = (padTo3 ((sortLevelsDesc (mkLevels bp bq)).take 3)).map
              (fun lv => (lv.price, lv.quantity))
      ∧ List.Pairwise (fun x y : ℚ × ℤ => y.2 ≤ x.2)
          (calculate_sup_res bp bq ap aq).support_levels
      ∧ (∀ x ∈ (sortLevelsDesc (mkLevels bp bq)).take 3,
          ∀ y ∈ (sortLevelsDesc (mkLevels bp bq)).drop 3, y.quantity ≤ x.quantity)
      ∧ (sortLevelsDesc (mkLevels bp bq)).Perm (mkLevels bp bq)
      ∧ (∀ q : ℤ,
          List.filter (fun lv => decide (lv.quantity = q)) (sortLevelsDesc (mkLevels bp bq))
            = List.filter (fun lv => decide (lv.quantity = q)) (mkLevels bp bq))
      ∧ (calculate_sup_res bp bq ap aq).support_avg
          = avgOfPairs (calculate_sup_res bp bq ap aq).support_levels)
    ∧ ((calculate_sup_res bp bq ap aq).resistance_levels.length = 3
      ∧ (calculate_sup_res bp bq ap aq).resistance_levels
          = (padTo3 ((sortLevelsDesc (mkLevels ap aq)).take 3)).map
              (fun lv => (lv.price, lv.quantity))
      ∧ List.Pairwise (fun x y : ℚ × ℤ => y.2 ≤ x.2)
          (calculate_sup_res bp bq ap aq).resistance_levels
      ∧ (∀ x ∈ (sortLevelsDesc (mkLevels ap aq)).take 3,
          ∀ y ∈ (sortLevelsDesc (mkLevels ap aq)).drop 3, y.quantity ≤ x.quantity)
      ∧ (sortLevelsDesc (mkLevels ap aq)).Perm (mkLevels ap aq)
      ∧ (∀ q : ℤ,
          List.filter (fun lv => decide (lv.quantity = q)) (sortLevelsDesc (mkLevels ap aq))
            = List.filter (fun lv => decide (lv.quantity = q)) (mkLevels ap aq))
      ∧ (calculate_sup_res bp bq ap aq).resistance_avg
          = avgOfPairs (calculate_sup_res bp bq ap aq).resistance_levels)
    ∧ calculate_sup_res [18205/100, 182, 18195/100, 1819/10, 18185/100, 909/5]
          [600, 1950, 900, 1350, 900, 1200]
          [1824/10, 18245/100, 1825/10, 18255/100, 1826/10, 18265/100]
          [750, 675, 1800, 1200, 750, 1275]
        = { support_levels := [(182, 1950), (1819/10, 1350), (909/5, 1200)]
            support_avg := 1819/10
            resistance_levels := [(365/2, 1800), (3653/20, 1275), (3651/20, 1200)]
            resistance_avg := 5477/30 } := by
  have hb : ∀ lv ∈ mkLevels bp bq, 0 ≤ lv.quantity :=
    fun lv hlv => hbq lv.quantity (mem_mkLevels_quantity bp bq lv hlv)
  have ha : ∀ lv ∈ mkLevels ap aq, 0 ≤ lv.quantity :=
    fun lv hlv => haq lv.quantity (mem_mkLevels_quantity ap aq lv hlv)
  refine ⟨⟨?_, rfl, ?_, sortLevelsDesc_take_drop _, sortLevelsDesc_perm _,
      fun q => filter_sortLevelsDesc _ q, (avgOfPairs_map _).symm⟩,
    ⟨?_, rfl, ?_, sortLevelsDesc_take_drop _, sortLevelsDesc_perm _,
      fun q => filter_sortLevelsDesc _ q, (avgOfPairs_map _).symm⟩, ?_⟩
  · show ((padTo3 ((sortLevelsDesc (mkLevels bp bq)).take 3)).map
        (fun lv => (lv.price, lv.quantity))).length = 3
    rw [List.length_map]
    exact padTo3_take_length _
  · show List.Pairwise (fun x y : ℚ × ℤ => y.2 ≤ x.2)
      ((padTo3 ((sortLevelsDesc (mkLevels bp bq)).take 3)).map
        (fun lv => (lv.price, lv.quantity)))
    rw [List.pairwise_map]
    exact padTo3_take_pairwise _ hb
  · show ((padTo3 ((sortLevelsDesc (mkLevels ap aq)).take 3)).map
        (fun lv => (lv.price, lv.quantity))).length = 3
    rw [List.length_map]
    exact padTo3_take_length _
  · show List.Pairwise (fun x y : ℚ × ℤ => y.2 ≤ x.2)
      ((padTo3 ((sortLevelsDesc (mkLevels ap aq)).take 3)).map
        (fun lv => (lv.price, lv.quantity)))
    rw [List.pairwise_map]
    exact padTo3_take_pairwise _ ha
  · norm_num [calculate_sup_res, mkLevels, sortLevelsDesc, levelGE, padTo3, avgNonzero]
    exact ⟨List.cons_ne_nil _ _, List.cons_ne_nil _ _⟩

/-- C3 (witness): the amended theorem applied to the S3 book (its quantities
are non-negative), and the concrete S3 support triple it yields. -/
theorem C3_sup_res_amended_witness :
    (∀ q ∈ ([600, 1950, 900, 1350, 900, 1200] : List ℤ), 0 ≤ q)
      ∧ (∀ q ∈ ([750, 675, 1800, 1200, 750, 1275] : List ℤ), 0 ≤ q)
      ∧ (calculate_sup_res [18205/100, 182, 18195/100, 1819/10, 18185/100, 909/5]
            [600, 1950, 900, 1350, 900, 1200]
            [1824/10, 18245/100, 1825/10, 18255/100, 1826/10, 18265/100]
            [750, 675, 1800, 1200, 750, 1275]).support_levels.length = 3 := by
  refine ⟨by norm_num, by norm_num, ?_⟩
  exact (C3_sup_res_amended [18205/100, 182, 18195/100, 1819/10, 18185/100, 909/5]
    [600, 1950, 900, 1350, 900, 1200]
    [1824/10, 18245/100, 1825/10, 18255/100, 1826/10, 18265/100]
    [750, 675, 1800, 1200, 750, 1275] (by norm_num) (by norm_num)).1.1

/-! ### Lemmas for the candle-builder claims -/

/-- `dict` update always leaves the key present. -/
theorem mem_map_fst_setAssoc {α : Type} [DecidableEq α] {β : Type} :
    ∀ (l : List (α × β)) (k : α) (v : β), k ∈ (setAssoc l k v).map Prod.fst := by
  intro l
  induction l with
  | nil => intro k v; simp [setAssoc]
  | cons kv rest ih =>
      intro k v
      by_cases h : kv.1 = k
      · simp [setAssoc, h]
      · simp only [setAssoc]
        rw [if_neg h]
        simp only [List.map_cons, List.mem_cons]
        exact Or.inr (ih k v)

/-- The candle timestamp of a built event is the accumulator's minute,
independently of the previous-candle cache. -/
theorem buildCandleEvent_timestamp (prevs : List (String × CandleData)) (c : CandleData) :
    (buildCandleEvent prevs c).candle_timestamp = c.candle_time := rfl

/-- `handleTick` does not touch `_last_minute_check`. -/
theorem handleTick_last (s : BuilderState) (t : Tick) :
    (handleTick s t).last_minute_check = s.last_minute_check := rfl

/-- The completion loop emits exactly the events of the active accumulators
whose candle minute-of-hour differs from the current time's, in order. -/
theorem completeLoop_timestamps (ct : ℕ) :
    ∀ (entries : List ((String × ℕ) × CandleData)) (prevs : List (String × CandleData))
      (evs : List CandleEvent) (keys : List (String × ℕ)),
      ((entries.foldl (completeStep ct) (prevs, evs, keys)).2.1).map
          (fun e => e.candle_timestamp)
        = evs.map (fun e => e.candle_timestamp)
          ++ (entries.filter (fun kc =>
                decide (minuteOfHour ct ≠ minuteOfHour kc.2.candle_time))).map
              (fun kc => kc.2.candle_time) := by
  intro entries
  induction entries with
  | nil => intro prevs evs keys; simp
  | cons kc rest ih =>
      intro prevs evs keys
      rw [List.foldl_cons]
      by_cases h : minuteOfHour ct ≠ minuteOfHour kc.2.candle_time
      · rw [show completeStep ct (prevs, evs, keys) kc
            = (setAssoc prevs kc.2.instrument_key kc.2,
               evs ++ [buildCandleEvent prevs kc.2], keys ++ [kc.1]) from if_pos h]
        rw [ih]
        simp [List.filter_cons, h, buildCandleEvent_timestamp]
      · rw [show completeStep ct (prevs, evs, keys) kc = (prevs, evs, keys) from if_neg h]
        rw [ih]
        simp [List.filter_cons, h]

/-- C6 (counterexample): an out-of-order tick for a minute strictly below an
already-finalized candle's key is NOT discarded.  After ticks at 09:15:00 and
09:16:00 (which finalize the 09:15 candle), a tick at 09:14:50 creates an
accumulator keyed 09:14 (= 33240 s), and a fourth tick at 09:17:00 makes the
builder emit a candle for that stale minute. -/
theorem C6_out_of_order_counterexample :
    (("I", 33240) ∈ (runTicks emptyBuilder [mkTick "I" 33300 10 0 0 none,
        mkTick "I" 33360 11 0 0 none, mkTick "I" 33290 12 0 0 none]).1.active_candles.map
          Prod.fst)
      ∧ ((runTicks emptyBuilder [mkTick "I" 33300 10 0 0 none, mkTick "I" 33360 11 0 0 none,
          mkTick "I" 33290 12 0 0 none, mkTick "I" 33420 13 0 0 none]).2.map
            (fun e => e.candle_timestamp) = [33300, 33360, 33240])
      ∧ (mkTick "I" 33290 12 0 0 none).candle_time = 33240
      ∧ 33240 < 33300 := by
  refine ⟨?_, ?_, by norm_num [mkTick], by norm_num⟩ <;>
    norm_num +decide [runTicks, tickHandler, handleTick, checkAndComplete, completeStep,
      buildCandleEvent, lookupAssoc, setAssoc, addTick, initCandleData, mkTick, emptyBuilder,
      minuteOfHour, candle_gamma_spike, calculate_gamma_spike, calculate_order_book_metrics,
      calculate_oi_change, calculate_average_greek, qtruthy, max_def, min_def]

/-- C6 (amended): out-of-order ticks are not discarded: handling any tick —
also one whose candle minute lies strictly below an already-finalized
candle's key — installs an accumulator under `(instrument_key, candle_time)`,
and a candle for the stale minute is emitted by a later sweep (concretely,
the 09:14:50 tick arriving after the 09:15 candle was finalized yields an
active 09:14 accumulator and, after a 09:17:00 tick, an emitted 09:14
candle). -/
theorem C6_out_of_order_amended :
    (∀ (s : BuilderState) (t : Tick),
        (t.instrument_key, t.candle_time) ∈
          ((handleTick s t).active_candles.map Prod.fst))
      ∧ (("I", 33240) ∈ (runTicks emptyBuilder [mkTick "I" 33300 10 0 0 none,
          mkTick "I" 33360 11 0 0 none, mkTick "I" 33290 12 0 0 none]).1.active_candles.map
            Prod.fst)
      ∧ ((runTicks emptyBuilder [mkTick "I" 33300 10 0 0 none, mkTick "I" 33360 11 0 0 none,
          mkTick "I" 33290 12 0 0 none, mkTick "I" 33420 13 0 0 none]).2.map
            (fun e => e.candle_timestamp) = [33300, 33360, 33240]) := by
  refine ⟨?_, ?_, ?_⟩
  · intro s t
    unfold handleTick
    exact mem_map_fst_setAssoc _ _ _
  all_goals
    norm_num +decide [runTicks, tickHandler, handleTick, checkAndComplete, completeStep,
      buildCandleEvent, lookupAssoc, setAssoc, addTick, initCandleData, mkTick, emptyBuilder,
      minuteOfHour, candle_gamma_spike, calculate_gamma_spike, calculate_order_book_metrics,
      calculate_oi_change, calculate_average_greek, qtruthy, max_def, min_def]

/-- C7 (counterexample): finalization is NOT triggered exactly by ticks whose
candle minute is strictly greater than the accumulator's key: a tick at
09:15:30 (candle minute 33300) finalizes the 09:16 accumulator
(key 33360 > 33300), because the sweep compares minutes-of-hour for
inequality, not order. -/
theorem C7_rollover_counterexample :
    ((runTicks emptyBuilder [mkTick "I" 33360 10 0 0 none,
        mkTick "I" 33330 11 0 0 none]).2.map (fun e => e.candle_timestamp) = [33360])
      ∧ (mkTick "I" 33330 11 0 0 none).candle_time = 33300
      ∧ 33300 < 33360 := by
  refine ⟨?_, by norm_num [mkTick], by norm_num⟩
  norm_num +decide [runTicks, tickHandler, handleTick, checkAndComplete, completeStep,
    buildCandleEvent, lookupAssoc, setAssoc, addTick, initCandleData, mkTick, emptyBuilder,
    minuteOfHour, candle_gamma_spike, calculate_gamma_spike, calculate_order_book_metrics,
    calculate_oi_change, calculate_average_greek, qtruthy, max_def, min_def]

/-- C7 (amended): per handled tick, the sweep runs exactly when the tick's
candle minute-of-hour differs from `_last_minute_check`, and it finalizes
exactly the active accumulators whose candle minute-of-hour differs from the
tick timestamp's (not those with strictly smaller keys); on the S4 sequence
this emits exactly one candle — 09:15 with open 180, high 181, low 179.5,
close 179.5, 3 ticks — while the 09:16 accumulator stays in progress with
2 ticks. -/
theorem C7_rollover_amended :
    (∀ (s : BuilderState) (t : Tick),
        (tickHandler s t).2.map (fun e => e.candle_timestamp)
          = if s.last_minute_check ≠ some (minuteOfHour t.candle_time)
            then ((handleTick s t).active_candles.filter (fun kc =>
                    decide (minuteOfHour t.timestamp ≠ minuteOfHour kc.2.candle_time))).map
                  (fun kc => kc.2.candle_time)
            else [])
      ∧ (runTicks emptyBuilder [mkTick "I" 33305 180 0 0 none, mkTick "I" 33323 181 0 0 none,
          mkTick "I" 33347 (359/2) 0 0 none, mkTick "I" 33362 182 0 0 none,
          mkTick "I" 33390 (365/2) 0 0 none]).2.map
            (fun e => (e.candle_timestamp, e.open_, e.high, e.low, e.close, e.tick_count))
          = [(33300, some 180, some 181, some (359/2), some (359/2), 3)]
      ∧ (runTicks emptyBuilder [mkTick "I" 33305 180 0 0 none, mkTick "I" 33323 181 0 0 none,
          mkTick "I" 33347 (359/2) 0 0 none, mkTick "I" 33362 182 0 0 none,
          mkTick "I" 33390 (365/2) 0 0 none]).1.active_candles.map
            (fun kc => (kc.1, kc.2.tick_count))
          = [(("I", 33360), 2)] := by
  refine ⟨?_, ?_, ?_⟩
  · intro s t
    by_cases h : s.last_minute_check ≠ some (minuteOfHour t.candle_time)
    · rw [if_pos h]
      show ((if (handleTick s t).last_minute_check ≠ some (minuteOfHour t.candle_time)
            then ({ (checkAndComplete t.timestamp (handleTick s t)).1 with
                      last_minute_check := some (minuteOfHour t.candle_time) },
                  (checkAndComplete t.timestamp (handleTick s t)).2)
            else (handleTick s t, [])).2).map (fun e => e.candle_timestamp) = _
      rw [handleTick_last, if_pos h]
      show ((checkAndComplete t.timestamp (handleTick s t)).2).map
          (fun e => e.candle_timestamp) = _
      unfold checkAndComplete
      rw [completeLoop_timestamps]
      simp
    · rw [if_neg h]
      show ((if (handleTick s t).last_minute_check ≠ some (minuteOfHour t.candle_time)
            then ({ (checkAndComplete t.timestamp (handleTick s t)).1 with
                      last_minute_check := some (minuteOfHour t.candle_time) },
                  (checkAndComplete t.timestamp (handleTick s t)).2)
            else (handleTick s t, [])).2).map (fun e => e.candle_timestamp) = []
      rw [handleTick_last, if_neg h]
      rfl
  all_goals
    norm_num +decide [runTicks, tickHandler, handleTick, checkAndComplete, completeStep,
      buildCandleEvent, lookupAssoc, setAssoc, addTick, initCandleData, mkTick, emptyBuilder,
      minuteOfHour, candle_gamma_spike, calculate_gamma_spike, calculate_order_book_metrics,
      calculate_oi_change, calculate_average_greek, qtruthy, max_def, min_def]

/-- C9 (counterexample): the OI change is NOT computed whenever a previous
finalized candle of the same instrument is present: with a previous candle
whose OI is 0 (first candle below, OI 0, then OI 5), the source's guard
`if prev_candle and prev_candle.oi > 0:` leaves `oi_change` null on the
second candle even though the previous-candle cache holds an entry. -/
theorem C9_oi_change_counterexample :
    ((runTicks emptyBuilder [mkTick "I" 60 10 0 0 none, mkTick "I" 120 11 0 5 none,
        mkTick "I" 180 12 0 0 none]).2.map (fun e => (e.instrument_key, e.oi_change))
      = [("I", none), ("I", none)])
      ∧ ((lookupAssoc (runTicks emptyBuilder [mkTick "I" 60 10 0 0 none,
          mkTick "I" 120 11 0 5 none]).1.previous_candles "I").isSome = true) := by
  constructor <;>
    norm_num +decide [runTicks, tickHandler, handleTick, checkAndComplete, completeStep,
      buildCandleEvent, lookupAssoc, setAssoc, addTick, initCandleData, mkTick, emptyBuilder,
      minuteOfHour, candle_gamma_spike, calculate_gamma_spike, calculate_order_book_metrics,
      calculate_oi_change, calculate_average_greek, qtruthy, max_def, min_def]

/-- C9 (amended): at finalization, `oi_change` and `oi_change_pct` are
computed against the cached previous candle of the instrument exactly when
one is present AND its OI is strictly positive (null otherwise), the cache is
then updated to the just-finalized candle, and on the S5 trace (OI 8,000,000
then 7,950,000) the second candle carries `oi_change = -50000` and
`oi_change_pct = -0.00625 = -1/160`. -/
theorem C9_oi_change_amended :
    (∀ (prevs : List (String × CandleData)) (c : CandleData),
        ((buildCandleEvent prevs c).oi_change, (buildCandleEvent prevs c).oi_change_pct)
          = match lookupAssoc prevs c.instrument_key with
            | some p =>
                if 0 < p.oi
                then (some (((c.oi - p.oi : ℤ) : ℚ)),
                      some (((c.oi - p.oi : ℤ) : ℚ) / ((p.oi : ℤ) : ℚ)))
                else (none, none)
            | none => (none, none))
      ∧ ((runTicks emptyBuilder [mkTick "I" 60 10 0 8000000 none,
          mkTick "I" 120 11 0 7950000 none, mkTick "I" 180 12 0 0 none]).2.map
            (fun e => (e.candle_timestamp, e.oi, e.oi_change, e.oi_change_pct))
          = [(60, 8000000, none, none),
             (120, 7950000, some (-50000), some (-(1 : ℚ)/160))])
      ∧ ((runTicks emptyBuilder [mkTick "I" 60 10 0 8000000 none,
          mkTick "I" 120 11 0 7950000 none]).1.previous_candles.map
            (fun p => (p.1, p.2.oi, p.2.candle_time)) = [("I", 8000000, 60)]) := by
  refine ⟨?_, ?_, ?_⟩
  · intro prevs c
    rcases h : lookupAssoc prevs c.instrument_key with _ | p
    · simp [buildCandleEvent, h]
    · by_cases hoi : 0 < p.oi
      · have hne : p.oi ≠ 0 := by omega
        simp [buildCandleEvent, h, hoi, calculate_oi_change, hne]
      · simp [buildCandleEvent, h, hoi]
  all_goals
    norm_num +decide [runTicks, tickHandler, handleTick, checkAndComplete, completeStep,
      buildCandleEvent, lookupAssoc, setAssoc, addTick, initCandleData, mkTick, emptyBuilder,
      minuteOfHour, candle_gamma_spike, calculate_gamma_spike, calculate_order_book_metrics,
      calculate_oi_change, calculate_average_greek, qtruthy, max_def, min_def]

end Nifty
